import Mathlib

/-!
Shallow embedding of the token-budget and version-adaptation core of the
mcp-server-elasticsearch-sl repository, together with theorems settling the
frozen claims C1..C10.

Conventions used throughout:
* JavaScript strings are Lean `String`s; nullable/optional JS values are
  `Option` values; JS truthiness of an optional string is `strTruthy`
  (undefined/null/empty string are falsy).
* JS numbers that the source only ever uses as integer token counts or
  counters are `Nat`/`Int`; byte sizes flowing through `parseFloat` are
  exact unnormalized fractions `Common.Q`, with `Option Common.Q` where the
  source can produce `NaN` (`none` = NaN); every comparison on such values
  treats `none` the way JS treats NaN (all `<`/`>` comparisons false).
* The tiktoken tokenizer behind `calculateTokens` is an external library;
  the shaping logic consumes it only through the count it returns, so the
  embedding abstracts it as a parameter `est : String → Nat`.
-/

namespace Common

/-- JS truthiness of an optional string: `undefined`/`null`/`""` are falsy. -/
def strTruthy : Option String → Bool
  | none => false
  | some s => s ≠ ""

/-- Lowercase a string character-wise (JS `toLowerCase` on ASCII data). -/
def lowerStr (s : String) : String :=
  String.mk (s.data.map Char.toLower)

/-- JS `String.prototype.trim`: strip leading and trailing whitespace. -/
def jsTrim (s : String) : String :=
  String.mk
    (((s.data.dropWhile Char.isWhitespace).reverse.dropWhile Char.isWhitespace).reverse)

/-- Digit run to a natural number. -/
def digitsToNat (cs : List Char) : Nat :=
  cs.foldl (fun a c => a * 10 + (c.toNat - '0'.toNat)) 0

/-- JS `Number.prototype.toLocaleString` for natural numbers: decimal
digits grouped in threes by commas. -/
def groupDigits (cs : List Char) : List Char :=
  let rec go : List Char → Nat → List Char
    | [], _ => []
    | c :: rest, k =>
      if k = 3 ∨ k = 6 ∨ k = 9 ∨ k = 12 ∨ k = 15 then
        c :: ',' :: go rest (k + 1)
      else
        c :: go rest (k + 1)
  (go cs.reverse 1).reverse

def toLocaleString (n : Nat) : String :=
  String.mk (groupDigits (Nat.repr n).data)

/-- Exact fraction (numerator over positive denominator), standing in
for the JS floating-point numbers that flow through size parsing and
averaging.  No normalization is performed, so every operation reduces in
the kernel; all denominators built below are positive. -/
structure Q where
  num : Int
  den : Nat
deriving Repr, DecidableEq

def Q.ofNat (n : Nat) : Q := ⟨n, 1⟩

def Q.ofInt (n : Int) : Q := ⟨n, 1⟩

def Q.add (a b : Q) : Q := ⟨a.num * b.den + b.num * a.den, a.den * b.den⟩

def Q.mul (a b : Q) : Q := ⟨a.num * b.num, a.den * b.den⟩

/-- Division, correct whenever the divisor is positive (every divisor in
the embedded code is). -/
def Q.div (a b : Q) : Q := ⟨a.num * b.den, a.den * b.num.natAbs⟩

/-- Strict comparison by cross-multiplication (denominators are
nonnegative). -/
def Q.blt (a b : Q) : Bool := a.num * b.den < b.num * a.den

def Q.ble (a b : Q) : Bool := a.num * b.den ≤ b.num * a.den

def Q.maxQ (a b : Q) : Q := if Q.blt a b then b else a

/-- Whether the value is numerically zero (JS `=== 0`). -/
def Q.isZero (a : Q) : Bool := a.num = 0

/-- JS `Math.round`: floor of the value plus one half. -/
def Q.round (a : Q) : Int := Int.fdiv (2 * a.num + a.den) (2 * a.den)

/-- JS `parseFloat` restricted to strings over the alphabet `[0-9.]`
(the only strings it receives here, since the size regex has already
matched): longest prefix of shape `digits [. digits]`; `none` models NaN
(no digits consumed). -/
def parseFloatPrefix (cs : List Char) : Option Q :=
  let intPart := cs.takeWhile Char.isDigit
  let rest := cs.drop intPart.length
  match rest with
  | '.' :: r =>
    let fracPart := r.takeWhile Char.isDigit
    if intPart.isEmpty ∧ fracPart.isEmpty then none
    else some (Q.add (Q.ofNat (digitsToNat intPart))
      ⟨digitsToNat fracPart, 10 ^ fracPart.length⟩)
  | _ =>
    if intPart.isEmpty then none else some (Q.ofNat (digitsToNat intPart))

/-- Multiplier table of `parseSizeToBytes` (powers of 1024). -/
def unitMultiplier (u : String) : Q :=
  if u = "b" then Q.ofNat 1
  else if u = "kb" then Q.ofNat 1024
  else if u = "mb" then Q.ofNat (1024 * 1024)
  else if u = "gb" then Q.ofNat (1024 * 1024 * 1024)
  else if u = "tb" then Q.ofNat (1024 * 1024 * 1024 * 1024)
  else Q.ofNat 1

/-- Split a lowercased size string into numeric part and unit suffix, the
unique decomposition matched by the anchored regex
`^([0-9.]+)([kmgt]?b)$` (the numeric group cannot contain letters). -/
def splitSize (cs : List Char) : Option (List Char × String) :=
  match cs.reverse with
  | 'b' :: c :: rest =>
    if c = 'k' ∨ c = 'm' ∨ c = 'g' ∨ c = 't' then
      some (rest.reverse, String.mk [c, 'b'])
    else
      some ((c :: rest).reverse, "b")
  | ['b'] => some ([], "b")
  | _ => none

/-- Embedding of `parseSizeToBytes` (duplicated verbatim in
shard-analyzer and datastream-analyzer): falsy input or no regex match
gives 0; a matched numeric group that `parseFloat`s to NaN gives NaN
(`none`). -/
def parseSizeToBytes (sizeStr : Option String) : Option Q :=
  match sizeStr with
  | none => some (Q.ofNat 0)
  | some s =>
    if s = "" then some (Q.ofNat 0)
    else
      let cs := s.data.map Char.toLower
      match splitSize cs with
      | none => some (Q.ofNat 0)
      | some (num, u) =>
        if num ≠ [] ∧ num.all (fun c => c.isDigit ∨ c = '.') then
          match parseFloatPrefix num with
          | none => none
          | some v => some (Q.mul v (unitMultiplier u))
        else some (Q.ofNat 0)

/-- NaN-propagating addition on JS numbers. -/
def addQ : Option Q → Option Q → Option Q
  | some a, some b => some (Q.add a b)
  | _, _ => none

/-- NaN-propagating division by a positive constant. -/
def divQ (x : Option Q) (d : Q) : Option Q :=
  x.map (fun v => Q.div v d)

/-- JS `x > y` with NaN on the left: false. -/
def gtQ (x : Option Q) (y : Q) : Bool :=
  match x with
  | none => false
  | some v => Q.blt y v

/-- JS `x < y` with NaN on the left: false. -/
def ltQ (x : Option Q) (y : Q) : Bool :=
  match x with
  | none => false
  | some v => Q.blt v y

/-- JS `x >= y` with NaN on the left: false. -/
def geQ (x : Option Q) (y : Q) : Bool :=
  match x with
  | none => false
  | some v => Q.ble y v

/-- JS `x === 0` with NaN on the left: false. -/
def eqZeroQ (x : Option Q) : Bool :=
  match x with
  | none => false
  | some v => v.isZero

/-- A line of `n` repeated characters (JS `'='.repeat(n)` and friends). -/
def repeatChar (c : Char) (n : Nat) : String :=
  String.mk (List.replicate n c)

end Common

namespace TokenLimiter

open Common

/-- Result record of `checkTokenLimit` (token-limiter.ts). -/
structure TokenCheckResult where
  allowed : Bool
  tokens : Nat
  error : Option String
deriving Repr, DecidableEq

/-- The suggestion text attached when the limit is exceeded
(token-limiter.ts lines 57-66, quote characters elided). -/
def tokenLimitErrorText (tokens maxTokens : Nat) : String :=
  "Token limit exceeded: result contains " ++ toString tokens ++
  " tokens, limit is " ++ toString maxTokens ++ ".\n\n" ++
  "Suggestions:\n" ++
  "1. Reduce the size/limit parameters in your query\n" ++
  "2. Narrow down the time range or date filters\n" ++
  "3. Add more specific query filters to reduce result set\n" ++
  "4. Use aggregations instead of raw documents when possible\n" ++
  "5. If absolutely necessary, retry with break_token_rule: true\n\n" ++
  "Note: Frequent use of break_token_rule may cause context overflow and degraded AI performance."

/-- Embedding of `checkTokenLimit` (token-limiter.ts lines 36-74).
`resultText` stands for `JSON.stringify(result)` and `est` for
`calculateTokens` (the external tokenizer). -/
def checkTokenLimit (est : String → Nat) (resultText : String)
    (maxTokens : Nat) (breakRule : Bool) : TokenCheckResult :=
  if breakRule then
    { allowed := true, tokens := 0, error := none }
  else
    let tokens := est resultText
    if tokens > maxTokens then
      { allowed := false, tokens := tokens,
        error := some (tokenLimitErrorText tokens maxTokens) }
    else
      { allowed := true, tokens := tokens, error := none }

end TokenLimiter

namespace ListIndices

open Common

/-- Committed summary levels of the list_indices summary path. -/
inductive SummaryLevel where
  | full
  | compact
  | minimal
deriving Repr, DecidableEq

def levelName : SummaryLevel → String
  | .full => "full"
  | .compact => "compact"
  | .minimal => "minimal"

/-- Outcome of the auto-mode level selection: chosen text, committed
level, and the auto-switch annotation (empty when no switch happened). -/
structure AutoSelection where
  resultText : String
  actualLevel : SummaryLevel
  autoSwitchMessage : String
deriving Repr, DecidableEq

/-- Embedding of the auto-mode ladder of list_indices
(list-indices.ts lines 129-154): try full, then compact, then minimal,
committing to the first whose estimated token count fits the budget;
`break_token_rule` short-circuits every budget comparison.  The three
texts are the outputs of `formatSummaryText`, `formatCompactSummary`
and `formatMinimalSummary` on the already-computed summary, which this
code consumes opaquely. -/
def autoSelectSummaryLevel (est : String → Nat) (maxTokenCall : Nat)
    (breakTokenRule : Bool)
    (fullText compactText minimalText : String) : AutoSelection :=
  let fullTokens := est fullText
  if fullTokens ≤ maxTokenCall ∨ breakTokenRule then
    { resultText := fullText, actualLevel := .full, autoSwitchMessage := "" }
  else
    let compactTokens := est compactText
    if compactTokens ≤ maxTokenCall ∨ breakTokenRule then
      { resultText := compactText, actualLevel := .compact,
        autoSwitchMessage :=
          "Full summary would exceed token limit (" ++
          toLocaleString fullTokens ++ " tokens).\n" ++
          "Auto-switched to compact mode.\n\n" }
    else
      { resultText := minimalText, actualLevel := .minimal,
        autoSwitchMessage :=
          "Full (" ++ toLocaleString fullTokens ++ ") and Compact (" ++
          toLocaleString compactTokens ++ ") summaries exceed token limit.\n" ++
          "Auto-switched to minimal mode for extreme-scale cluster.\n\n" }

/-- Round-half-up rendering of a rational with one decimal digit, standing
in for JS float `toFixed(1)` inside the savings annotation (claims never
depend on these digits). -/
def pct1dp (savings : Int) (orig : Nat) : String :=
  if orig = 0 then "NaN"
  else
    let scaled : Int := (savings * 1000 + (orig : Int) / 2) / (orig : Int)
    toString (scaled / 10) ++ "." ++ toString ((scaled % 10).natAbs)

/-- Token statistics footer appended to every summary response
(list-indices.ts lines 176-182). -/
def statsFooter (level : SummaryLevel)
    (originalTokens optimizedTokens maxTokenCall : Nat) : String :=
  let tokenSavings : Int := (originalTokens : Int) - (optimizedTokens : Int)
  "\n" ++ repeatChar '=' 60 ++ "\n" ++
  "Token Usage Statistics:\n" ++
  "   Summary Level:           " ++ levelName level ++ "\n" ++
  "   Original (full data):    " ++ toLocaleString originalTokens ++ " tokens\n" ++
  "   Optimized (summary):     " ++ toLocaleString optimizedTokens ++ " tokens\n" ++
  "   Saved:                   " ++ toString tokenSavings ++ " tokens (" ++
  pct1dp tokenSavings originalTokens ++ "% reduction)\n" ++
  "   Max allowed per call:    " ++ toLocaleString maxTokenCall ++ " tokens\n"

/-- Embedding of the summary-path response assembly for
`summary_level: "auto"` (list-indices.ts lines 118-194): select a level,
append the statistics footer, prepend the auto-switch or large-set
annotation, append suggestions. `originalFullData` stands for the JSON
serialization of the full index list and `suggestions` for the output of
`generateSuggestions`. -/
def buildSummaryResponse (est : String → Nat) (maxTokenCall : Nat)
    (breakTokenRule : Bool)
    (originalFullData fullText compactText minimalText suggestions : String)
    (isLargeSet summaryMode : Bool) (totalCount : Nat) : String :=
  let originalTokens := est originalFullData
  let sel := autoSelectSummaryLevel est maxTokenCall breakTokenRule
    fullText compactText minimalText
  let optimizedTokens := est sel.resultText
  let base := sel.resultText ++
    statsFooter sel.actualLevel originalTokens optimizedTokens maxTokenCall
  let annotated :=
    if sel.autoSwitchMessage ≠ "" then
      sel.autoSwitchMessage ++ base
    else if isLargeSet ∧ summaryMode = false ∧ sel.actualLevel ≠ .minimal then
      "Large index set detected (" ++ toString totalCount ++ " indices).\n" ++
      "Auto-switched to summary mode.\n\n" ++ base
    else
      base
  annotated ++ suggestions

end ListIndices

namespace GetShards

open Common

/-- MCP tool response as far as this tool shapes it: one text content
block plus the error flag. -/
structure ToolResponse where
  text : String
  isError : Bool
deriving Repr, DecidableEq

/-- The budget-overflow message of get_shards (get-shards.ts lines
173-179, quote characters elided); it interpolates only counts, the
analysis mode and the filter, never the analysis text. -/
def budgetExceededMessage (optimizedTokens maxTokenCall : Nat)
    (analysisMode : String) (indexFilter : Option String) : String :=
  "Analysis result exceeds token limit (" ++
  toLocaleString optimizedTokens ++ " > " ++
  toLocaleString maxTokenCall ++ ").\n\n" ++
  "Suggestions:\n" ++
  "1. Use the index parameter to filter specific indices\n" ++
  "2. Use analysis_mode: summary for minimal output\n" ++
  "3. Set break_token_rule: true to force output (not recommended)\n\n" ++
  "Current mode: " ++ analysisMode ++ "\n" ++
  "Filtered: " ++
  (match indexFilter with
   | some i => "Yes (" ++ i ++ ")"
   | none => "No (all indices)")

/-- Token statistics footer of get_shards (get-shards.ts lines 153-165);
the savings line appears only when the raw data was larger. -/
def shardStatsFooter (analysisMode : String)
    (originalDataTokens optimizedTokens maxTokenCall : Nat) : String :=
  "\n" ++ repeatChar '=' 60 ++ "\n" ++
  "Token Usage Statistics:\n" ++
  "   Analysis Mode:           " ++ analysisMode ++ "\n" ++
  "   Original (raw data):     " ++ toLocaleString originalDataTokens ++ " tokens\n" ++
  "   Optimized (analysis):    " ++ toLocaleString optimizedTokens ++ " tokens\n" ++
  (if originalDataTokens > optimizedTokens then
    "   Saved:                   " ++
    toLocaleString (originalDataTokens - optimizedTokens) ++ " tokens (" ++
    ListIndices.pct1dp ((originalDataTokens : Int) - (optimizedTokens : Int))
      originalDataTokens ++ "% reduction)\n"
  else "") ++
  "   Max allowed per call:    " ++ toLocaleString maxTokenCall ++ " tokens\n"

/-- Embedding of the tail of the get_shards handler (get-shards.ts lines
149-193): measure the mode-chosen analysis text, append the statistics
footer, and gate on the budget.  When the analysis text measures over the
budget and the bypass flag is off, the handler returns ONLY the overflow
message with `isError: true`; otherwise it returns the analysis text with
its footer. -/
def getShardsRespond (est : String → Nat) (maxTokenCall : Nat)
    (breakTokenRule : Bool) (analysisMode : String)
    (indexFilter : Option String) (resultText : String)
    (originalDataTokens : Nat) : ToolResponse :=
  let optimizedTokens := est resultText
  let finalText := resultText ++
    shardStatsFooter analysisMode originalDataTokens optimizedTokens maxTokenCall
  if optimizedTokens > maxTokenCall ∧ breakTokenRule = false then
    { text := budgetExceededMessage optimizedTokens maxTokenCall
        analysisMode indexFilter,
      isError := true }
  else
    { text := finalText, isError := false }

end GetShards

namespace ClientFactory

/-- Outcome of `createVersionedClient`: the major version of the client
package actually constructed together with the fallback warnings
surfaced on the way, or the startup error thrown. -/
inductive ClientLoadResult where
  | ok (clientMajor : Nat) (warnings : List String)
  | err (msg : String)
deriving Repr, DecidableEq

def clientPackageName (major : Nat) : String :=
  "@elastic/elasticsearch-v" ++ toString major

/-- The error thrown when a required client package import fails
(client-factory.ts lines 613-618). -/
def clientNotInstalledMsg (major : Nat) (pkg : String) : String :=
  "ES " ++ toString major ++ ".x client not installed. " ++
  "Please install: npm install " ++ pkg

/-- Embedding of `createVersionedClient` (client-factory.ts lines
527-621).  `installed n` models whether the optional package
`@elastic/elasticsearch-vN` can be dynamically imported.  Fallback exists
only in the `major = 9` arm (to v8) and in the default arm for majors
outside 5..9 (to v9, then v8); the arms for majors 5..8 import exactly
one package and propagate its failure as an error. -/
def createVersionedClient (installed : Nat → Bool) (major : Nat) :
    ClientLoadResult :=
  if major = 9 then
    if installed 9 then .ok 9 []
    else if installed 8 then
      .ok 8 ["ES 9.x client not available, using ES 8.x client as fallback"]
    else .err (clientNotInstalledMsg 9 (clientPackageName 8))
  else if major = 8 then
    if installed 8 then .ok 8 []
    else .err (clientNotInstalledMsg 8 (clientPackageName 8))
  else if major = 7 then
    if installed 7 then .ok 7 []
    else .err (clientNotInstalledMsg 7 (clientPackageName 7))
  else if major = 6 then
    if installed 6 then .ok 6 []
    else .err (clientNotInstalledMsg 6 (clientPackageName 6))
  else if major = 5 then
    if installed 5 then .ok 5 []
    else .err (clientNotInstalledMsg 5 (clientPackageName 5))
  else
    let headWarnings :=
      ["Elasticsearch " ++ toString major ++ ".x is not explicitly supported yet.",
       "Attempting to use ES 9.x client (latest available) as fallback..."]
    if installed 9 then .ok 9 headWarnings
    else if installed 8 then
      .ok 8 (headWarnings ++
        ["ES 9.x client not installed, falling back to ES 8.x client..."])
    else .err (clientNotInstalledMsg major (clientPackageName 8))

end ClientFactory

namespace CapabilityManager

/-- Version record produced by the probe (version-detector.ts). -/
structure ESVersionInfo where
  major : Nat
  minor : Nat
  patch : Nat
deriving Repr, DecidableEq

/-- Embedding of `CapabilityManager.meetsVersion` (capability-manager
source, lines 192-196). -/
def meetsVersion (v : ESVersionInfo) (minMajor minMinor : Nat) : Bool :=
  if v.major > minMajor then true
  else if v.major < minMajor then false
  else v.minor ≥ minMinor

def supportsDataStreams (v : ESVersionInfo) : Bool := meetsVersion v 7 9

def supportsSearchableSnapshots (v : ESVersionInfo) : Bool := meetsVersion v 7 10

def supportsRuntimeFields (v : ESVersionInfo) : Bool := meetsVersion v 7 11

def supportsPointInTime (v : ESVersionInfo) : Bool := meetsVersion v 7 10

def supportsSQL (v : ESVersionInfo) : Bool := meetsVersion v 6 3

def supportsCrossClusterSearch (v : ESVersionInfo) : Bool := meetsVersion v 5 3

def hasMappingTypes (v : ESVersionInfo) : Bool := v.major < 7

def supportsILM (v : ESVersionInfo) : Bool := meetsVersion v 6 6

/-- Embedding of `supportsRollupJobs` (lines 257-261): available from
6.3, removed from 8.11 on and absent in major 9+. -/
def supportsRollupJobs (v : ESVersionInfo) : Bool :=
  if v.major ≥ 9 then false
  else if v.major = 8 ∧ v.minor ≥ 11 then false
  else meetsVersion v 6 3

/-- Lexicographic order on (major, minor), the order in which the claims
about the capability matrix are stated (patch never enters any check). -/
def lexLe (a b : ESVersionInfo) : Prop :=
  a.major < b.major ∨ (a.major = b.major ∧ a.minor ≤ b.minor)

end CapabilityManager

namespace MappingAnalyzer

/-- Field capability flags: [S]earch [T]erm [A]ggregate [O]rder [R]ange
[G]eo [N]ested (mapping-analyzer source, line 7). -/
inductive FieldCapability where
  | S
  | T
  | A
  | O
  | R
  | G
  | N
deriving Repr, DecidableEq

/-- The slice of a field definition object that `detectCapabilities`
reads: the `doc_values` and `index` flags (absent, or an explicit
boolean). -/
structure FieldDef where
  doc_values : Option Bool
  index : Option Bool
deriving Repr, DecidableEq

/-- The type-keyed switch of `detectCapabilities` (mapping-analyzer
source, lines 110-169). -/
def baseCaps (type : String) : List FieldCapability :=
  if type = "text" then [.S]
  else if type = "keyword" ∨ type = "constant_keyword" ∨ type = "wildcard" then
    [.T, .A, .O]
  else if type = "long" ∨ type = "integer" ∨ type = "short" ∨ type = "byte" ∨
      type = "double" ∨ type = "float" ∨ type = "half_float" ∨
      type = "scaled_float" ∨ type = "unsigned_long" then
    [.T, .A, .O, .R]
  else if type = "date" ∨ type = "date_nanos" then [.T, .A, .O, .R]
  else if type = "boolean" then [.T, .A]
  else if type = "ip" then [.T, .A, .R]
  else if type = "geo_point" ∨ type = "geo_shape" then [.G]
  else if type = "nested" then [.N]
  else []

/-- Embedding of `detectCapabilities` (mapping-analyzer source, lines
107-183): type switch, then `doc_values: false` splices out Aggregate,
then `index: false` clears everything. -/
def detectCapabilities (type : String) (fieldDef : FieldDef) :
    List FieldCapability :=
  let caps := baseCaps type
  let caps :=
    if fieldDef.doc_values = some false ∧ FieldCapability.A ∈ caps then
      caps.erase .A
    else caps
  if fieldDef.index = some false then [] else caps

end MappingAnalyzer

namespace DataStreamAnalyzer

open Common

/-- Backing-index record (datastream-analyzer.ts lines 6-13). -/
structure BackingIndex where
  index : String
  health : Option String
  status : Option String
  docs_count : Option Nat
  store_size : Option String
  creation_date : Option String
deriving Repr, DecidableEq

/-- Data-stream record (datastream-analyzer.ts lines 15-25). -/
structure DataStreamInfo where
  name : String
  timestamp_field : String
  indices_count : Nat
  backing_indices : List BackingIndex
  generation : Nat
  template : Option String
  ilm_policy : Option String
deriving Repr, DecidableEq

/-- Aggregate statistics (datastream-analyzer.ts lines 27-34); byte and
gigabyte totals are NaN-capable. -/
structure DataStreamStats where
  total_docs : Nat
  total_size_bytes : Option Q
  total_size_gb : Option Q
  oldest_index : Option String
  newest_index : Option String
  creation_rate : Option Q
deriving Repr, DecidableEq

/-- Loop state of `calculateDataStreamStats`; `oldestDate` starts at
`Number.MAX_SAFE_INTEGER` and `newestDate` at 0 exactly as in the
source. -/
structure StatsAcc where
  totalDocs : Nat
  totalSizeBytes : Option Q
  oldestIndex : Option String
  newestIndex : Option String
  oldestDate : Int
  newestDate : Int
deriving Repr, DecidableEq

def maxSafeInteger : Int := 9007199254740991

/-- One iteration of the stats loop (datastream-analyzer.ts lines
128-151).  `parseDate` abstracts `new Date(s).getTime()` with `none` for
NaN (an invalid date updates nothing, since NaN comparisons are
false). -/
def statsStep (parseDate : String → Option Int) (acc : StatsAcc)
    (idx : BackingIndex) : StatsAcc :=
  let acc :=
    match idx.docs_count with
    | some n => if n ≠ 0 then { acc with totalDocs := acc.totalDocs + n } else acc
    | none => acc
  let acc :=
    if strTruthy idx.store_size then
      let newSize := addQ acc.totalSizeBytes (parseSizeToBytes idx.store_size)
      { acc with totalSizeBytes := newSize }
    else acc
  match idx.creation_date with
  | none => acc
  | some d =>
    match parseDate d with
    | none => acc
    | some t =>
      let acc :=
        if t < acc.oldestDate then
          { acc with oldestDate := t, oldestIndex := some idx.index }
        else acc
      if t > acc.newestDate then
        { acc with newestDate := t, newestIndex := some idx.index }
      else acc


/-- Embedding of `calculateDataStreamStats` (datastream-analyzer.ts
lines 118-170). -/
def calculateDataStreamStats (parseDate : String → Option Int)
    (backingIndices : List BackingIndex) : DataStreamStats :=
  let acc := backingIndices.foldl (statsStep parseDate)
    { totalDocs := 0, totalSizeBytes := some (Q.ofNat 0), oldestIndex := none,
      newestIndex := none, oldestDate := maxSafeInteger, newestDate := 0 }
  let creationRate : Option Q :=
    if acc.oldestDate ≠ maxSafeInteger ∧ acc.newestDate > 0 then
      let ageHours : Q := Q.div (Q.ofInt (acc.newestDate - acc.oldestDate))
        (Q.ofNat (1000 * 60 * 60))
      if Q.blt (Q.ofNat 0) ageHours then
        some (Q.ofInt (Q.round (Q.div (Q.ofNat acc.totalDocs) ageHours)))
      else none
    else none
  { total_docs := acc.totalDocs,
    total_size_bytes := acc.totalSizeBytes,
    total_size_gb := divQ acc.totalSizeBytes (Q.ofNat (1024 * 1024 * 1024)),
    oldest_index := acc.oldestIndex,
    newest_index := acc.newestIndex,
    creation_rate := creationRate }

/-- Health verdict values. -/
inductive HealthStatus where
  | healthy
  | warning
  | critical
deriving Repr, DecidableEq

/-- Health record (datastream-analyzer.ts lines 36-47). -/
structure DataStreamHealth where
  status : HealthStatus
  issues : List String
  recommendations : List String
  has_red_indices : Bool
  has_yellow_indices : Bool
  excessive_backing_indices : Bool
  large_current_index : Bool
  rollover_issues : Bool
deriving Repr, DecidableEq

/-- Round-half-up two-decimal rendering of a nonnegative rational,
standing in for JS `toFixed(2)` inside advisory strings. -/
def q2dp (q : Q) : String :=
  let n : Int := Int.fdiv (200 * q.num + q.den) (2 * q.den)
  let frac := (n % 100).natAbs
  toString (n / 100) ++ "." ++
  (if frac < 10 then "0" ++ toString frac else toString frac)

/-- Embedding of `formatBytes` (datastream-analyzer.ts lines 105-113)
for the positive sizes on which the analyzer calls it. -/
def formatBytes (bytes : Q) : String :=
  if bytes.isZero then "0 B"
  else
    if Q.ble (Q.ofNat (1024 ^ 4)) bytes then
      q2dp (Q.div bytes (Q.ofNat (1024 ^ 4))) ++ " TB"
    else if Q.ble (Q.ofNat (1024 ^ 3)) bytes then
      q2dp (Q.div bytes (Q.ofNat (1024 ^ 3))) ++ " GB"
    else if Q.ble (Q.ofNat (1024 ^ 2)) bytes then
      q2dp (Q.div bytes (Q.ofNat (1024 ^ 2))) ++ " MB"
    else if Q.ble (Q.ofNat 1024) bytes then
      q2dp (Q.div bytes (Q.ofNat 1024)) ++ " KB"
    else q2dp bytes ++ " B"

def formatBytesOpt : Option Q → String
  | none => "NaN undefined"
  | some v => formatBytes v

/-- Embedding of `analyzeDataStreamHealth` (datastream-analyzer.ts lines
175-250).  Issue and recommendation strings are accumulated in the
source's order: per-index red issues from the loop, then excessive
count, current-index size, rollover heuristics, and missing ILM. -/
def analyzeDataStreamHealth (dsInfo : DataStreamInfo)
    (stats : DataStreamStats) : DataStreamHealth :=
  let hasRed := dsInfo.backing_indices.any (fun i => i.health = some "red")
  let hasYellow := dsInfo.backing_indices.any (fun i => i.health = some "yellow")
  let redIssues := dsInfo.backing_indices.filterMap (fun i =>
    if i.health = some "red" then some ("Red index detected: " ++ i.index)
    else none)
  let excessiveIndices := dsInfo.indices_count > 200
  let currentIndex := dsInfo.backing_indices.getLast?
  let currentSize : Option String :=
    match currentIndex with
    | some ci => ci.store_size
    | none => none
  let largeCurrentIndex :=
    strTruthy currentSize ∧
      gtQ (divQ (parseSizeToBytes currentSize) (Q.ofNat (1024 * 1024 * 1024))) (Q.ofNat 50)
  let rolloverTooLarge :=
    dsInfo.indices_count < 5 ∧ gtQ stats.total_size_gb (Q.ofNat 100)
  let rolloverTooMany :=
    ¬ rolloverTooLarge ∧ dsInfo.indices_count > 100 ∧ ltQ stats.total_size_gb (Q.ofNat 50)
  let rolloverIssues := rolloverTooLarge ∨ rolloverTooMany
  let noIlm := strTruthy dsInfo.ilm_policy = false
  let issues := redIssues ++
    (if excessiveIndices then
      ["Excessive backing indices: " ++ toString dsInfo.indices_count ++
       " (threshold: 200)"]
     else []) ++
    (if largeCurrentIndex then
      ["Current index is large: " ++ formatBytesOpt (parseSizeToBytes currentSize)]
     else []) ++
    (if rolloverTooLarge then
      ["Indices too large - rollover not occurring frequently enough"]
     else if rolloverTooMany then
      ["Too many small indices - rollover occurring too frequently"]
     else []) ++
    (if noIlm then ["No ILM policy configured"] else [])
  let recommendations :=
    (if excessiveIndices then
      ["Review ILM policy delete phase or reduce retention period"]
     else []) ++
    (if largeCurrentIndex then
      ["Check ILM rollover conditions (max_size, max_docs, max_age)"]
     else []) ++
    (if rolloverTooLarge then
      ["Reduce ILM rollover thresholds (max_size: 50gb, max_age: 1d)"]
     else if rolloverTooMany then
      ["Increase ILM rollover thresholds or reduce data retention"]
     else []) ++
    (if noIlm then
      ["Configure ILM policy for automatic lifecycle management"]
     else [])
  let status : HealthStatus :=
    if hasRed ∨ excessiveIndices then .critical
    else if hasYellow ∨ largeCurrentIndex ∨ rolloverIssues ∨ noIlm then .warning
    else .healthy
  { status := status,
    issues := issues,
    recommendations := recommendations,
    has_red_indices := hasRed,
    has_yellow_indices := hasYellow,
    excessive_backing_indices := excessiveIndices,
    large_current_index := decide largeCurrentIndex,
    rollover_issues := decide rolloverIssues }

/-- Spec vocabulary for C6: some backing index is red. -/
def hasRedIndexSpec (ds : DataStreamInfo) : Prop :=
  ∃ i ∈ ds.backing_indices, i.health = some "red"

/-- Spec vocabulary for C6: some backing index is yellow. -/
def hasYellowIndexSpec (ds : DataStreamInfo) : Prop :=
  ∃ i ∈ ds.backing_indices, i.health = some "yellow"

/-- Spec vocabulary for C6: the last (current) backing index reports a
store size parsing to more than 50GB. -/
def largeLastIndexSpec (ds : DataStreamInfo) : Prop :=
  ∃ last, ds.backing_indices.getLast? = some last ∧
    Common.strTruthy last.store_size = true ∧
    Common.gtQ (Common.divQ (Common.parseSizeToBytes last.store_size)
      (Common.Q.ofNat (1024 * 1024 * 1024))) (Common.Q.ofNat 50) = true

/-- Spec vocabulary for C6: rollover-frequency anomaly — fewer than 5
backing indices holding more than 100GB, or more than 100 backing
indices holding less than 50GB. -/
def rolloverAnomalySpec (ds : DataStreamInfo) (stats : DataStreamStats) : Prop :=
  (ds.backing_indices.length < 5 ∧
    Common.gtQ stats.total_size_gb (Common.Q.ofNat 100) = true) ∨
  (ds.backing_indices.length > 100 ∧
    Common.ltQ stats.total_size_gb (Common.Q.ofNat 50) = true)

/-- Spec vocabulary for C6: no ILM policy configured. -/
def missingIlmSpec (ds : DataStreamInfo) : Prop :=
  Common.strTruthy ds.ilm_policy = false

/-- Spec vocabulary for C6: the critical-tier condition. -/
def criticalSpec (ds : DataStreamInfo) : Prop :=
  hasRedIndexSpec ds ∨ ds.backing_indices.length > 200

/-- Spec vocabulary for C6: the warning-tier condition. -/
def warningSpec (ds : DataStreamInfo) (stats : DataStreamStats) : Prop :=
  hasYellowIndexSpec ds ∨ largeLastIndexSpec ds ∨
  rolloverAnomalySpec ds stats ∨ missingIlmSpec ds

end DataStreamAnalyzer

namespace ShardAnalyzer

open Common

/-- Raw cat-shards row (shard-analyzer source, lines 337-346); every
column is nullable. -/
structure ShardInfo where
  index : Option String
  shard : Option String
  prirep : Option String
  state : Option String
  docs : Option String
  store : Option String
  ip : Option String
  node : Option String
deriving Repr, DecidableEq

/-- JS `parseInt(s, 10)` on a leading-integer prefix; `none` models NaN. -/
def parseIntPrefix (cs : List Char) : Option Int :=
  let cs := cs.dropWhile (fun c => c = ' ' ∨ c = '\t' ∨ c = '\n' ∨ c = '\r')
  match cs with
  | '-' :: rest =>
    let ds := rest.takeWhile Char.isDigit
    if ds.isEmpty then none else some (-(digitsToNat ds : Int))
  | '+' :: rest =>
    let ds := rest.takeWhile Char.isDigit
    if ds.isEmpty then none else some (digitsToNat ds : Int)
  | _ =>
    let ds := cs.takeWhile Char.isDigit
    if ds.isEmpty then none else some (digitsToNat ds : Int)

/-- Embedding of `parseDocsToNumber` (lines 450-453):
`parseInt(docsStr, 10) || 0`. -/
def parseDocsToNumber (docsStr : Option String) : Int :=
  match docsStr with
  | none => 0
  | some s =>
    match parseIntPrefix s.data with
    | none => 0
    | some n => n

structure StateCounts where
  started : Nat
  initializing : Nat
  relocating : Nat
  unassigned : Nat
deriving Repr, DecidableEq

structure SizeHealth where
  optimal : Nat
  large : Nat
  oversized : Nat
  small : Nat
  unknown : Nat
deriving Repr, DecidableEq

structure DocsHealth where
  healthy : Nat
  warning : Nat
  critical : Nat
  unknown : Nat
deriving Repr, DecidableEq

structure ProblemShards where
  unassigned : List ShardInfo
  oversized : List ShardInfo
  over_documented : List ShardInfo
  initializing_long : List ShardInfo
deriving Repr, DecidableEq

structure OverShardedIssue where
  index : String
  shard_count : Nat
  total_size_gb : Option Q
deriving Repr, DecidableEq

structure UnbalancedIssue where
  index : String
  reason : String
deriving Repr, DecidableEq

structure IndexIssues where
  over_sharded : List OverShardedIssue
  unbalanced : List UnbalancedIssue
deriving Repr, DecidableEq

structure SizeImbalancedShard where
  index : String
  shard : String
  size_gb : Option Q
  avg_size_gb : Option Q
  ratio : Option Q
deriving Repr, DecidableEq

structure NodeOverloadedEntry where
  node : String
  shard_count : Nat
  avg_count : Q
deriving Repr, DecidableEq

structure HotShards where
  size_imbalanced : List SizeImbalancedShard
  node_overloaded : List NodeOverloadedEntry
deriving Repr, DecidableEq

structure ReplicaByCount where
  zero : Nat
  one : Nat
  two_plus : Nat
deriving Repr, DecidableEq

structure SameNodeIssue where
  index : String
  shard : String
  issue : String
deriving Repr, DecidableEq

structure ReplicaAnalysis where
  by_replica_count : ReplicaByCount
  same_node_issues : List SameNodeIssue
  total_replica_overhead_gb : Option Q
deriving Repr, DecidableEq

/-- Full metrics record of `analyzeShardHealth` (lines 348-422). -/
structure ShardHealthMetrics where
  total_shards : Nat
  primary_shards : Nat
  replica_shards : Nat
  states : StateCounts
  size_health : SizeHealth
  docs_health : DocsHealth
  problem_shards : ProblemShards
  index_issues : IndexIssues
  hot_shards : HotShards
  replica_analysis : ReplicaAnalysis
deriving Repr, DecidableEq

/-- Per-index accumulator of the main loop (line 491). -/
structure IndexStat where
  shards : Nat
  totalSize : Option Q
  maxDocs : Int
deriving Repr, DecidableEq

/-- Insertion-ordered association list standing in for a JS `Map`. -/
def alistGet {β : Type} (m : List (String × β)) (k : String) : Option β :=
  (m.find? (fun p => p.1 = k)).map (fun p => p.2)

def alistSet {β : Type} (m : List (String × β)) (k : String) (v : β) :
    List (String × β) :=
  if (m.find? (fun p => p.1 = k)).isSome then
    m.map (fun p => if p.1 = k then (k, v) else p)
  else m ++ [(k, v)]

/-- Insertion-ordered set (JS `Set`): add keeps the first occurrence. -/
def osetAdd (s : List String) (x : String) : List String :=
  if x ∈ s then s else s ++ [x]

/-- `shard.state?.toLowerCase() || ''` (line 507). -/
def stateLower (sh : ShardInfo) : String :=
  match sh.state with
  | some s => lowerStr s
  | none => ""

/-- State of the main analysis loop (lines 463-493). -/
structure LoopState where
  primary_shards : Nat
  replica_shards : Nat
  states : StateCounts
  size_health : SizeHealth
  docs_health : DocsHealth
  unassignedShards : List ShardInfo
  oversizedShards : List ShardInfo
  overDocumentedShards : List ShardInfo
  indexStats : List (String × IndexStat)
  nodeShardCount : List (String × Nat)
  indexShardSizes : List (String × List (Option Q))
deriving Repr, DecidableEq

def initLoopState : LoopState :=
  { primary_shards := 0, replica_shards := 0,
    states := ⟨0, 0, 0, 0⟩,
    size_health := ⟨0, 0, 0, 0, 0⟩,
    docs_health := ⟨0, 0, 0, 0⟩,
    unassignedShards := [], oversizedShards := [], overDocumentedShards := [],
    indexStats := [], nodeShardCount := [], indexShardSizes := [] }

/-- Role counting (lines 500-504). -/
def countRoleStep (st : LoopState) (shard : ShardInfo) : LoopState :=
  if shard.prirep = some "p" then
    { st with primary_shards := st.primary_shards + 1 }
  else
    { st with replica_shards := st.replica_shards + 1 }

/-- State counting and unassigned-problem collection (lines 506-514). -/
def countStateStep (st : LoopState) (shard : ShardInfo) : LoopState :=
  let state := stateLower shard
  if state = "started" then
    { st with states := { st.states with started := st.states.started + 1 } }
  else if state = "initializing" then
    { st with states := { st.states with initializing := st.states.initializing + 1 } }
  else if state = "relocating" then
    { st with states := { st.states with relocating := st.states.relocating + 1 } }
  else if state = "unassigned" then
    { st with
      states := { st.states with unassigned := st.states.unassigned + 1 },
      unassignedShards := st.unassignedShards ++ [shard] }
  else st

/-- Size-health classification (lines 522-534). -/
def sizeHealthStep (sizeThresholdGB : Q) (st : LoopState)
    (shard : ShardInfo) : LoopState :=
  let sizeBytes := parseSizeToBytes shard.store
  let sizeGB := divQ sizeBytes (Q.ofNat (1024 * 1024 * 1024))
  if eqZeroQ sizeBytes then
    { st with size_health := { st.size_health with unknown := st.size_health.unknown + 1 } }
  else if gtQ sizeGB (Q.ofNat 100) then
    { st with
      size_health := { st.size_health with oversized := st.size_health.oversized + 1 },
      oversizedShards := st.oversizedShards ++ [shard] }
  else if gtQ sizeGB sizeThresholdGB then
    { st with size_health := { st.size_health with large := st.size_health.large + 1 } }
  else if geQ sizeGB (Q.ofNat 10) then
    { st with size_health := { st.size_health with optimal := st.size_health.optimal + 1 } }
  else
    { st with size_health := { st.size_health with small := st.size_health.small + 1 } }

/-- Docs-health classification (lines 536-546). -/
def docsHealthStep (docsThresholdM : Int) (st : LoopState)
    (shard : ShardInfo) : LoopState :=
  let docs := parseDocsToNumber shard.docs
  if docs = 0 then
    { st with docs_health := { st.docs_health with unknown := st.docs_health.unknown + 1 } }
  else if docs > docsThresholdM * 1000000 then
    { st with
      docs_health := { st.docs_health with critical := st.docs_health.critical + 1 },
      overDocumentedShards := st.overDocumentedShards ++ [shard] }
  else if docs > 100000000 then
    { st with docs_health := { st.docs_health with warning := st.docs_health.warning + 1 } }
  else
    { st with docs_health := { st.docs_health with healthy := st.docs_health.healthy + 1 } }

/-- Per-index stats and shard-size accumulation (lines 548-561). -/
def indexStatsStep (st : LoopState) (shard : ShardInfo) : LoopState :=
  let idx := shard.index.getD ""
  let sizeBytes := parseSizeToBytes shard.store
  let sizeGB := divQ sizeBytes (Q.ofNat (1024 * 1024 * 1024))
  let docs := parseDocsToNumber shard.docs
  let prev := (alistGet st.indexStats idx).getD ⟨0, some (Q.ofNat 0), 0⟩
  let newStats := alistSet st.indexStats idx
    ⟨prev.shards + 1, addQ prev.totalSize sizeGB, max prev.maxDocs docs⟩
  let st := { st with indexStats := newStats }
  let prevSizes := (alistGet st.indexShardSizes idx).getD []
  let newSizes := alistSet st.indexShardSizes idx (prevSizes ++ [sizeGB])
  { st with indexShardSizes := newSizes }

/-- Per-node shard counting (lines 564-567). -/
def nodeCountStep (st : LoopState) (shard : ShardInfo) : LoopState :=
  if strTruthy shard.node ∧ stateLower shard = "started" then
    let node := shard.node.getD ""
    let newCounts := alistSet st.nodeShardCount node
      (((alistGet st.nodeShardCount node).getD 0) + 1)
    { st with nodeShardCount := newCounts }
  else st

/-- One iteration of the main loop of `analyzeShardHealth` (lines
495-568), assembled from the section steps above in source order; rows
missing a truthy index or shard id are skipped, and the histogram block
runs only for started primaries. -/
def loopStep (sizeThresholdGB : Q) (docsThresholdM : Int)
    (st : LoopState) (shard : ShardInfo) : LoopState :=
  if strTruthy shard.index = false ∨ strTruthy shard.shard = false then st
  else
    let st := countRoleStep st shard
    let st := countStateStep st shard
    let st :=
      if shard.prirep = some "p" ∧ stateLower shard = "started" then
        indexStatsStep
          (docsHealthStep docsThresholdM
            (sizeHealthStep sizeThresholdGB st shard) shard) shard
      else st
    nodeCountStep st shard

/-- JS `Math.max(...)` over a list of possibly-NaN numbers (used only on
lists of length at least 2). -/
def maxQ (l : List (Option Q)) : Option Q :=
  if l.all (fun x => x.isSome) then
    some ((l.filterMap id).foldl Q.maxQ (Q.ofNat 0))
  else none

def sumQ (l : List (Option Q)) : Option Q :=
  l.foldl addQ (some (Q.ofNat 0))

/-- NaN-propagating division used for averages and ratios (divisors are
positive at every call site). -/
def divQQ : Option Q → Option Q → Option Q
  | some a, some b => some (Q.div a b)
  | _, _ => none

/-- Over-sharding detection (lines 571-580). -/
def detectOverSharded (indexStats : List (String × IndexStat)) :
    List OverShardedIssue :=
  indexStats.filterMap (fun p =>
    let avgShardSize := divQQ p.2.totalSize (some (Q.ofNat p.2.shards))
    if p.2.shards ≥ 5 ∧ ltQ avgShardSize (Q.ofNat 1) then
      some ⟨p.1, p.2.shards, p.2.totalSize⟩
    else none)

/-- Hot-shard detection (lines 588-612): for every index whose largest
primary shard is 3x the average (and the average exceeds 1GB), rescan
all shards of that index and flag those above 2.5x the average. -/
def detectSizeImbalanced (shards : List ShardInfo)
    (indexShardSizes : List (String × List (Option Q))) :
    List SizeImbalancedShard :=
  indexShardSizes.flatMap (fun p =>
    let sizes := p.2
    if sizes.length < 2 then []
    else
      let avgSize := divQQ (sumQ sizes) (some (Q.ofNat sizes.length))
      let maxSize := maxQ sizes
      let hot : Bool :=
        match maxSize, avgSize with
        | some m, some a => Q.blt (Q.mul a (Q.ofNat 3)) m && Q.blt (Q.ofNat 1) a
        | _, _ => false
      if hot then
        shards.filterMap (fun shard =>
          if shard.index = some p.1 ∧ shard.prirep = some "p" then
            let shardSize := divQ (parseSizeToBytes shard.store) (Q.ofNat (1024 * 1024 * 1024))
            let above : Bool :=
              match shardSize, avgSize with
              | some s, some a => Q.blt (Q.mul a ⟨5, 2⟩) s
              | _, _ => false
            if above then
              some ⟨p.1, (if strTruthy shard.shard then shard.shard.getD "" else "?"),
                shardSize, avgSize, divQQ shardSize avgSize⟩
            else none
          else none)
      else [])

/-- Node-overload detection (lines 615-627). -/
def detectNodeOverloaded (nodeShardCount : List (String × Nat)) :
    List NodeOverloadedEntry :=
  if nodeShardCount.length = 0 then []
  else
    let avg : Q :=
      Q.div (Q.ofNat (nodeShardCount.map (fun p => p.2)).sum)
        (Q.ofNat nodeShardCount.length)
    nodeShardCount.filterMap (fun p =>
      if Q.blt (Q.mul avg ⟨3, 2⟩) (Q.ofNat p.2) ∧ p.2 > 50 then
        some ⟨p.1, p.2, avg⟩
      else none)

/-- Per-index replica configuration accumulator (line 637). -/
structure ReplicaConfig where
  replicas : Nat
  primaryNodes : List String
  replicaNodes : List String
deriving Repr, DecidableEq

/-- Replica-strategy pass (lines 639-662): only rows whose raw state is
exactly the uppercase literal `STARTED` are considered. -/
def replicaStep (acc : List (String × ReplicaConfig) × Option Q)
    (shard : ShardInfo) : List (String × ReplicaConfig) × Option Q :=
  if strTruthy shard.index = false ∨ shard.state ≠ some "STARTED" then acc
  else
    let idx := shard.index.getD ""
    let cfg := (alistGet acc.1 idx).getD ⟨0, [], []⟩
    if shard.prirep = some "p" ∧ strTruthy shard.node then
      (alistSet acc.1 idx { cfg with primaryNodes := osetAdd cfg.primaryNodes (shard.node.getD "") }, acc.2)
    else if shard.prirep = some "r" ∧ strTruthy shard.node then
      let replicaSize := divQ (parseSizeToBytes shard.store) (Q.ofNat (1024 * 1024 * 1024))
      (alistSet acc.1 idx
        { cfg with
          replicaNodes := osetAdd cfg.replicaNodes (shard.node.getD ""),
          replicas := cfg.replicas + 1 },
       addQ acc.2 replicaSize)
    else acc

/-- Replica-count classification and same-node detection (lines
665-687). -/
def analyzeReplicaConfigs (configs : List (String × ReplicaConfig)) :
    ReplicaByCount × List SameNodeIssue :=
  configs.foldl (fun acc p =>
    let cfg := p.2
    let primaryCount : Nat := if cfg.primaryNodes.length = 0 then 1 else cfg.primaryNodes.length
    let replicasPerShard : Q := Q.div (Q.ofNat cfg.replicas) (Q.ofNat primaryCount)
    let counts :=
      if Q.blt replicasPerShard ⟨1, 2⟩ then { acc.1 with zero := acc.1.zero + 1 }
      else if Q.blt replicasPerShard ⟨3, 2⟩ then { acc.1 with one := acc.1.one + 1 }
      else { acc.1 with two_plus := acc.1.two_plus + 1 }
    let overlap := cfg.primaryNodes.filter (fun n => n ∈ cfg.replicaNodes)
    let issues :=
      if overlap.length > 0 then
        acc.2 ++ [⟨p.1, "(multiple)",
          "Primary and replica on same node(s): " ++ String.intercalate ", " overlap⟩]
      else acc.2
    (counts, issues)) (⟨0, 0, 0⟩, [])

/-- Embedding of `analyzeShardHealth` (shard-analyzer source, lines
458-690). -/
def analyzeShardHealth (shards : List ShardInfo)
    (sizeThresholdGB : Q) (docsThresholdM : Int) : ShardHealthMetrics :=
  let st := shards.foldl (loopStep sizeThresholdGB docsThresholdM) initLoopState
  let overSharded := detectOverSharded st.indexStats
  let sizeImbalanced := detectSizeImbalanced shards st.indexShardSizes
  let nodeOverloaded := detectNodeOverloaded st.nodeShardCount
  let rep := shards.foldl replicaStep ([], some (Q.ofNat 0))
  let repCounts := analyzeReplicaConfigs rep.1
  { total_shards := shards.length,
    primary_shards := st.primary_shards,
    replica_shards := st.replica_shards,
    states := st.states,
    size_health := st.size_health,
    docs_health := st.docs_health,
    problem_shards :=
      { unassigned := st.unassignedShards,
        oversized := st.oversizedShards,
        over_documented := st.overDocumentedShards,
        initializing_long := [] },
    index_issues := { over_sharded := overSharded, unbalanced := [] },
    hot_shards := { size_imbalanced := sizeImbalanced, node_overloaded := nodeOverloaded },
    replica_analysis :=
      { by_replica_count := repCounts.1,
        same_node_issues := repCounts.2,
        total_replica_overhead_gb := rep.2 } }

/-- Started-primary predicate: primary role and lowercased state
`started` (the guard of the histogram branch, line 517). -/
def startedPrimary (sh : ShardInfo) : Bool :=
  decide (sh.prirep = some "p" ∧ stateLower sh = "started")

/-- The histogram-relevant projection of the loop state: the two
histograms plus the problem lists they feed. -/
structure HistProj where
  size_health : SizeHealth
  docs_health : DocsHealth
  oversized : List ShardInfo
  over_documented : List ShardInfo
deriving Repr, DecidableEq

def histProj (st : LoopState) : HistProj :=
  ⟨st.size_health, st.docs_health, st.oversizedShards, st.overDocumentedShards⟩

end ShardAnalyzer

namespace Config

open Common

/-- Startup configuration record (index source, ConfigSchema object). -/
structure ElasticsearchConfig where
  url : String
  apiKey : Option String
  username : Option String
  password : Option String
  caCert : Option String
deriving Repr, DecidableEq

/-- Embedding of the `.refine` predicate of ConfigSchema (index source,
lines 46-64): a truthy username demands a truthy password and vice
versa; every other combination (API key, no auth, or API key together
with a full username/password pair) passes. -/
def configRefine (c : ElasticsearchConfig) : Bool :=
  if strTruthy c.username = true then strTruthy c.password
  else if strTruthy c.password = true then strTruthy c.username
  else if strTruthy c.apiKey = true then true
  else true

def refineErrorMsg : String :=
  "Either ES_API_KEY or both ES_USERNAME and ES_PASSWORD must be provided, or no auth for local development"

/-- Embedding of `ConfigSchema.parse`: the url field checks (trim,
non-empty, URL shape via the external validator `isValidUrl`) run before
the refine predicate; a failure throws (here: `Except.error`). -/
def configParse (isValidUrl : String → Bool) (c : ElasticsearchConfig) :
    Except String ElasticsearchConfig :=
  let trimmed := jsTrim c.url
  if trimmed = "" then .error "Elasticsearch URL cannot be empty"
  else if isValidUrl trimmed = false then .error "Invalid Elasticsearch URL format"
  else if configRefine { c with url := trimmed } = false then .error refineErrorMsg
  else .ok { c with url := trimmed }

def baseTools : List String :=
  ["list_indices", "get_mappings", "es_search", "execute_es_api", "get_shards"]

/-- Skeleton of `createElasticsearchMcpServer` (index source, lines
74-196) as far as the configuration claims reach: `ConfigSchema.parse`
runs first and aborts startup on failure; only afterwards are tools
registered (the base five always, `list_data_streams` gated on the
detected capability).  The intervening network steps (version probe,
client construction, liveness check) are external I/O elided here. -/
def createElasticsearchMcpServer (isValidUrl : String → Bool)
    (c : ElasticsearchConfig) (supportsDataStreams : Bool) :
    Except String (List String) :=
  match configParse isValidUrl c with
  | .error e => .error e
  | .ok _ =>
    .ok (baseTools ++ (if supportsDataStreams then ["list_data_streams"] else []))

/-- Whether an `Except` result is a success. -/
def exceptIsOk {ε α : Type} : Except ε α → Bool
  | .ok _ => true
  | .error _ => false

end Config

instance {ε α : Type} [DecidableEq ε] [DecidableEq α] :
    DecidableEq (Except ε α) := fun a b =>
  match a, b with
  | .error e, .error f => decidable_of_iff (e = f) (by simp)
  | .ok x, .ok y => decidable_of_iff (x = y) (by simp)
  | .error _, .ok _ => .isFalse (by simp)
  | .ok _, .error _ => .isFalse (by simp)

/-! ## Helper lemmas -/

theorem str_append_ne_empty_left (a b : String) (h : a ≠ "") : a ++ b ≠ "" := by
  intro hab
  apply h
  rw [String.ext_iff] at hab ⊢
  rw [String.data_append] at hab
  exact (List.append_eq_nil.mp hab).1

theorem str_infix_of_middle (a b c : String) :
    b.data <:+: (a ++ b ++ c).data := by
  refine ⟨a.data, c.data, ?_⟩
  rw [String.data_append, String.data_append]

/-! ## Claim theorems -/

/-- Claim C9: for every payload and every token limit, `checkTokenLimit`
with the bypass flag `breakRule` set to true returns `allowed: true`
with a reported token count of exactly 0 and no error, regardless of the
payload text and of what the tokenizer would report. -/
theorem checkTokenLimit_bypass_reports_zero (est : String → Nat)
    (resultText : String) (maxTokens : Nat) :
    TokenLimiter.checkTokenLimit est resultText maxTokens true =
      { allowed := true, tokens := 0, error := none } := rfl

/-- Claim C10: in the list_indices summary path with summary_level
`auto`, setting `break_token_rule` to true makes the ladder commit to
the `full` level for every dataset (every triple of rendered texts),
every token estimator and every budget: the budget comparison at the
first rung is short-circuited by the flag, so auto mode with the bypass
flag never degrades to compact or minimal. -/
theorem autoSelect_breakRule_always_full (est : String → Nat)
    (maxTokenCall : Nat) (fullText compactText minimalText : String) :
    (ListIndices.autoSelectSummaryLevel est maxTokenCall true
        fullText compactText minimalText).actualLevel = .full ∧
    (ListIndices.autoSelectSummaryLevel est maxTokenCall true
        fullText compactText minimalText).resultText = fullText := by
  constructor <;> simp [ListIndices.autoSelectSummaryLevel]

/-- Claim C5: `detectCapabilities` assigns a `keyword` field with
`doc_values: false` (and its index flag not disabled) exactly the
capabilities Term and Order, stripping Aggregate; and assigns any field
whose `index` flag is false the empty capability set regardless of its
declared type. -/
theorem detectCapabilities_docvalues_and_index
    (fd : MappingAnalyzer.FieldDef) :
    (fd.index ≠ some false → fd.doc_values = some false →
      MappingAnalyzer.detectCapabilities "keyword" fd =
        [MappingAnalyzer.FieldCapability.T, MappingAnalyzer.FieldCapability.O]) ∧
    (∀ (type : String) (fd2 : MappingAnalyzer.FieldDef),
      fd2.index = some false →
      MappingAnalyzer.detectCapabilities type fd2 = []) := by
  constructor
  · intro hidx hdv
    simp [MappingAnalyzer.detectCapabilities, MappingAnalyzer.baseCaps, hdv, hidx]
  · intro type fd2 hidx
    simp [MappingAnalyzer.detectCapabilities, hidx]

/-- Witness for C5 at concrete inputs: a keyword field definition with
`doc_values: false` gets `[T, O]`, and a text field with `index: false`
gets no capabilities. -/
theorem detectCapabilities_docvalues_and_index_witness :
    MappingAnalyzer.detectCapabilities "keyword" ⟨some false, none⟩ =
      [MappingAnalyzer.FieldCapability.T, MappingAnalyzer.FieldCapability.O] ∧
    MappingAnalyzer.detectCapabilities "text" ⟨none, some false⟩ = [] := by
  have h := detectCapabilities_docvalues_and_index ⟨some false, none⟩
  exact ⟨h.1 (by decide) rfl, h.2 "text" ⟨none, some false⟩ rfl⟩

/-- Claim C1: in the list_indices summary path with summary_level `auto`
and `break_token_rule` false, the committed level is the first of full,
compact, minimal (in that order) whose estimated token count is at or
below the budget, and its text is that level's rendering; when every
rendering exceeds the budget, the minimal rendering is still returned
inside a non-empty response carrying the auto-switch annotation (the
handler returns text, it does not throw). -/
theorem listIndices_auto_ladder_first_fit (est : String → Nat)
    (maxTokenCall : Nat)
    (originalFullData fullText compactText minimalText suggestions : String)
    (isLargeSet summaryMode : Bool) (totalCount : Nat) :
    (ListIndices.autoSelectSummaryLevel est maxTokenCall false
        fullText compactText minimalText).actualLevel =
      (if est fullText ≤ maxTokenCall then ListIndices.SummaryLevel.full
       else if est compactText ≤ maxTokenCall then ListIndices.SummaryLevel.compact
       else ListIndices.SummaryLevel.minimal) ∧
    (ListIndices.autoSelectSummaryLevel est maxTokenCall false
        fullText compactText minimalText).resultText =
      (if est fullText ≤ maxTokenCall then fullText
       else if est compactText ≤ maxTokenCall then compactText
       else minimalText) ∧
    (est fullText > maxTokenCall → est compactText > maxTokenCall →
      est minimalText > maxTokenCall →
      ListIndices.buildSummaryResponse est maxTokenCall false
        originalFullData fullText compactText minimalText suggestions
        isLargeSet summaryMode totalCount ≠ "" ∧
      minimalText.data <:+:
        (ListIndices.buildSummaryResponse est maxTokenCall false
          originalFullData fullText compactText minimalText suggestions
          isLargeSet summaryMode totalCount).data ∧
      (ListIndices.autoSelectSummaryLevel est maxTokenCall false
        fullText compactText minimalText).autoSwitchMessage ≠ "") := by
  refine ⟨?_, ?_, ?_⟩
  · by_cases h1 : est fullText ≤ maxTokenCall
    · simp [ListIndices.autoSelectSummaryLevel, h1]
    · by_cases h2 : est compactText ≤ maxTokenCall <;>
        simp [ListIndices.autoSelectSummaryLevel, h1, h2]
  · by_cases h1 : est fullText ≤ maxTokenCall
    · simp [ListIndices.autoSelectSummaryLevel, h1]
    · by_cases h2 : est compactText ≤ maxTokenCall <;>
        simp [ListIndices.autoSelectSummaryLevel, h1, h2]
  · intro h1 h2 _h3
    have h1' : ¬ (est fullText ≤ maxTokenCall) := by omega
    have h2' : ¬ (est compactText ≤ maxTokenCall) := by omega
    have hsel : ListIndices.autoSelectSummaryLevel est maxTokenCall false
        fullText compactText minimalText =
      { resultText := minimalText, actualLevel := .minimal,
        autoSwitchMessage :=
          "Full (" ++ Common.toLocaleString (est fullText) ++ ") and Compact (" ++
          Common.toLocaleString (est compactText) ++ ") summaries exceed token limit.\n" ++
          "Auto-switched to minimal mode for extreme-scale cluster.\n\n" } := by
      simp [ListIndices.autoSelectSummaryLevel, h1', h2']
    have hmsg : ("Full (" ++ Common.toLocaleString (est fullText) ++ ") and Compact (" ++
        Common.toLocaleString (est compactText) ++ ") summaries exceed token limit.\n" ++
        "Auto-switched to minimal mode for extreme-scale cluster.\n\n") ≠ "" := by
      repeat apply str_append_ne_empty_left
      decide
    have hresp : ListIndices.buildSummaryResponse est maxTokenCall false
        originalFullData fullText compactText minimalText suggestions
        isLargeSet summaryMode totalCount =
      ("Full (" ++ Common.toLocaleString (est fullText) ++ ") and Compact (" ++
        Common.toLocaleString (est compactText) ++ ") summaries exceed token limit.\n" ++
        "Auto-switched to minimal mode for extreme-scale cluster.\n\n") ++
      (minimalText ++
        ListIndices.statsFooter .minimal (est originalFullData) (est minimalText)
          maxTokenCall) ++ suggestions := by
      simp only [ListIndices.buildSummaryResponse, hsel]
      simp [hmsg]
    refine ⟨?_, ?_, ?_⟩
    · rw [hresp]
      apply str_append_ne_empty_left
      apply str_append_ne_empty_left
      exact hmsg
    · rw [hresp]
      refine ⟨("Full (" ++ Common.toLocaleString (est fullText) ++ ") and Compact (" ++
        Common.toLocaleString (est compactText) ++ ") summaries exceed token limit.\n" ++
        "Auto-switched to minimal mode for extreme-scale cluster.\n\n").data,
        (ListIndices.statsFooter .minimal (est originalFullData) (est minimalText)
          maxTokenCall).data ++ suggestions.data, ?_⟩
      simp [String.data_append]
    · rw [hsel]
      exact hmsg

/-- Witness for C1: with a length-based estimator and a zero budget
every rendering exceeds the budget, the ladder commits to minimal, and
the response is non-empty and contains the minimal rendering. -/
theorem listIndices_auto_ladder_first_fit_witness :
    (ListIndices.autoSelectSummaryLevel String.length 0 false
      "aaa" "aa" "a").actualLevel = ListIndices.SummaryLevel.minimal ∧
    ListIndices.buildSummaryResponse String.length 0 false
      "data" "aaa" "aa" "a" "" false false 0 ≠ "" ∧
    "a".data <:+: (ListIndices.buildSummaryResponse String.length 0 false
      "data" "aaa" "aa" "a" "" false false 0).data := by
  have h := listIndices_auto_ladder_first_fit String.length 0
    "data" "aaa" "aa" "a" "" false false 0
  refine ⟨?_, ?_, ?_⟩
  · rw [h.1]; decide
  · exact (h.2.2 (by decide) (by decide) (by decide)).1
  · exact (h.2.2 (by decide) (by decide) (by decide)).2.1

/-- Counterexample to claim C2: a get_shards call whose analysis text
measures over the budget (bypass flag false) yields a response that is
flagged as an error and whose text does not contain the analysis
rendering at all — the caller does not receive any best-effort rendering
of the data. -/
theorem getShards_overbudget_drops_rendering_cex :
    (GetShards.getShardsRespond String.length 0 false "summary" none
      "ZZZZ" 10).isError = true ∧
    ¬ ("ZZZZ".data <:+:
      (GetShards.getShardsRespond String.length 0 false "summary" none
        "ZZZZ" 10).text.data) := by
  set_option maxRecDepth 8000 in decide

/-- Amended claim C2: when the shaped get_shards result exceeds the token
budget and the bypass flag is false, the handler returns exactly the
fixed budget-overflow message (with actionable suggestions) flagged
`isError: true`, dropping the computed analysis text; it never throws,
but neither does it attach any rendering of the data.  (The
fall-back-to-summary behaviour the original claim describes exists in
list_indices, not in get_shards.) -/
theorem getShards_overbudget_error_only (est : String → Nat)
    (maxTokenCall : Nat) (analysisMode : String)
    (indexFilter : Option String) (resultText : String)
    (originalDataTokens : Nat) (h : est resultText > maxTokenCall) :
    GetShards.getShardsRespond est maxTokenCall false analysisMode
        indexFilter resultText originalDataTokens =
      { text := GetShards.budgetExceededMessage (est resultText) maxTokenCall
          analysisMode indexFilter,
        isError := true } := by
  simp only [GetShards.getShardsRespond]
  rw [if_pos ⟨h, by trivial⟩]

/-- Witness for the amended C2 at a concrete over-budget call. -/
theorem getShards_overbudget_error_only_witness :
    (GetShards.getShardsRespond String.length 0 false "summary" none
      "ZZZZ" 10).isError = true := by
  rw [getShards_overbudget_error_only String.length 0 "summary" none
    "ZZZZ" 10 (by decide)]

/-- Counterexample to claim C3: with only the v7 client implementation
installed, `createVersionedClient` for a detected major of 8 throws the
not-installed error even though an older compatible implementation (v7)
exists — there is no step-by-step fallback for majors 5 through 8. -/
theorem createVersionedClient_no_fallback_for_es8_cex :
    (fun n => n == 7) 7 = true ∧
    ClientFactory.createVersionedClient (fun n => n == 7) 8 =
      ClientFactory.ClientLoadResult.err
        (ClientFactory.clientNotInstalledMsg 8 (ClientFactory.clientPackageName 8)) := by
  exact ⟨rfl, rfl⟩

/-- Amended claim C3: fallback exists only in two places — a detected
major of 9 falls back a single step to the v8 client (with a warning),
and a major outside 5..9 tries the v9 client and then the v8 client
(surfacing warnings at each step); for majors 5 through 8 an unavailable
exact-match client package is a hard startup error even when older
implementations are installed. -/
theorem createVersionedClient_fallback_policy (installed : Nat → Bool)
    (major : Nat) :
    (installed 9 = false → installed 8 = true →
      ClientFactory.createVersionedClient installed 9 =
        ClientFactory.ClientLoadResult.ok 8
          ["ES 9.x client not available, using ES 8.x client as fallback"]) ∧
    (5 ≤ major → major ≤ 8 →
      ClientFactory.createVersionedClient installed major =
        (if installed major then ClientFactory.ClientLoadResult.ok major []
         else ClientFactory.ClientLoadResult.err
           (ClientFactory.clientNotInstalledMsg major
             (ClientFactory.clientPackageName major)))) ∧
    (major < 5 ∨ 9 < major →
      ClientFactory.createVersionedClient installed major =
        (if installed 9 then
          ClientFactory.ClientLoadResult.ok 9
            ["Elasticsearch " ++ toString major ++ ".x is not explicitly supported yet.",
             "Attempting to use ES 9.x client (latest available) as fallback..."]
         else if installed 8 then
          ClientFactory.ClientLoadResult.ok 8
            ["Elasticsearch " ++ toString major ++ ".x is not explicitly supported yet.",
             "Attempting to use ES 9.x client (latest available) as fallback...",
             "ES 9.x client not installed, falling back to ES 8.x client..."]
         else ClientFactory.ClientLoadResult.err
           (ClientFactory.clientNotInstalledMsg major
             (ClientFactory.clientPackageName 8)))) := by
  refine ⟨?_, ?_, ?_⟩
  · intro h9 h8
    simp [ClientFactory.createVersionedClient, h9, h8]
  · intro h5 h8
    interval_cases major <;> rfl
  · intro h
    simp only [ClientFactory.createVersionedClient]
    rw [if_neg (by omega), if_neg (by omega), if_neg (by omega),
      if_neg (by omega), if_neg (by omega)]
    simp

/-- Witness for the amended C3: single-step fallback at major 9,
hard error at major 7 with only v8 installed, and the default-arm chain
at major 12. -/
theorem createVersionedClient_fallback_policy_witness :
    ClientFactory.createVersionedClient (fun n => n == 8) 9 =
      ClientFactory.ClientLoadResult.ok 8
        ["ES 9.x client not available, using ES 8.x client as fallback"] ∧
    ClientFactory.createVersionedClient (fun n => n == 8) 7 =
      ClientFactory.ClientLoadResult.err
        (ClientFactory.clientNotInstalledMsg 7 (ClientFactory.clientPackageName 7)) ∧
    ClientFactory.createVersionedClient (fun n => n == 8) 12 =
      ClientFactory.ClientLoadResult.ok 8
        ["Elasticsearch 12.x is not explicitly supported yet.",
         "Attempting to use ES 9.x client (latest available) as fallback...",
         "ES 9.x client not installed, falling back to ES 8.x client..."] := by
  refine ⟨?_, ?_, ?_⟩
  · exact (createVersionedClient_fallback_policy (fun n => n == 8) 9).1
      (by decide) (by decide)
  · have h := (createVersionedClient_fallback_policy (fun n => n == 8) 7).2.1
      (by decide) (by decide)
    rw [h]
    rfl
  · have h := (createVersionedClient_fallback_policy (fun n => n == 8) 12).2.2
      (by omega)
    rw [h]
    rfl

/-- Helper: `meetsVersion` as an arithmetic condition. -/
theorem meetsVersion_eq_true_iff (v : CapabilityManager.ESVersionInfo)
    (a b : Nat) :
    CapabilityManager.meetsVersion v a b = true ↔
      (a < v.major ∨ (v.major = a ∧ b ≤ v.minor)) := by
  unfold CapabilityManager.meetsVersion
  split_ifs with h1 h2 <;> simp <;> omega

/-- Claim C4: every capability without a removal interval (data streams,
searchable snapshots, runtime fields, point-in-time, SQL, cross-cluster
search, ILM) is monotone under the lexicographic order on
(major, minor); rollup jobs, the deliberately removed feature, holds on
exactly the interval from 6.3 (inclusive) up to 8.11 (exclusive). -/
theorem capability_matrix_monotone (v w : CapabilityManager.ESVersionInfo)
    (h : CapabilityManager.lexLe v w) :
    (CapabilityManager.supportsDataStreams v = true →
      CapabilityManager.supportsDataStreams w = true) ∧
    (CapabilityManager.supportsSearchableSnapshots v = true →
      CapabilityManager.supportsSearchableSnapshots w = true) ∧
    (CapabilityManager.supportsRuntimeFields v = true →
      CapabilityManager.supportsRuntimeFields w = true) ∧
    (CapabilityManager.supportsPointInTime v = true →
      CapabilityManager.supportsPointInTime w = true) ∧
    (CapabilityManager.supportsSQL v = true →
      CapabilityManager.supportsSQL w = true) ∧
    (CapabilityManager.supportsCrossClusterSearch v = true →
      CapabilityManager.supportsCrossClusterSearch w = true) ∧
    (CapabilityManager.supportsILM v = true →
      CapabilityManager.supportsILM w = true) ∧
    (CapabilityManager.supportsRollupJobs v = true ↔
      ((6 < v.major ∨ (v.major = 6 ∧ 3 ≤ v.minor)) ∧
       (v.major < 8 ∨ (v.major = 8 ∧ v.minor < 11)))) := by
  have mono : ∀ a b, CapabilityManager.meetsVersion v a b = true →
      CapabilityManager.meetsVersion w a b = true := by
    intro a b hv
    rw [meetsVersion_eq_true_iff] at hv ⊢
    unfold CapabilityManager.lexLe at h
    omega
  refine ⟨mono 7 9, mono 7 10, mono 7 11, mono 7 10, mono 6 3, mono 5 3,
    mono 6 6, ?_⟩
  unfold CapabilityManager.supportsRollupJobs
  split_ifs with h1 h2
  · simp
    omega
  · simp
    omega
  · rw [meetsVersion_eq_true_iff]
    omega

/-- Witness for C4: monotone step 7.9 to 8.2 for data streams, and
rollup availability at 8.10 via the interval characterization. -/
theorem capability_matrix_monotone_witness :
    CapabilityManager.supportsDataStreams ⟨8, 2, 0⟩ = true ∧
    CapabilityManager.supportsRollupJobs ⟨8, 10, 0⟩ = true := by
  refine ⟨?_, ?_⟩
  · exact (capability_matrix_monotone ⟨7, 9, 0⟩ ⟨8, 2, 0⟩
      (Or.inl (by decide))).1 rfl
  · exact (capability_matrix_monotone ⟨8, 10, 0⟩ ⟨8, 10, 0⟩
      (Or.inr ⟨rfl, le_refl 10⟩)).2.2.2.2.2.2.2.mpr (by decide)

/-- Counterexample to claim C8: a configuration supplying both an API
key and a full username/password pair passes the refine validation and
reaches tool registration — the schema does not make the two auth forms
mutually exclusive (the API key merely takes precedence later when the
client options are built). -/
theorem config_apiKey_with_basic_accepted_cex :
    Config.configRefine
      ⟨"http://localhost:9200", some "key", some "user", some "pass", none⟩ = true ∧
    Config.createElasticsearchMcpServer (fun _ => true)
      ⟨"http://localhost:9200", some "key", some "user", some "pass", none⟩ true =
      Except.ok ["list_indices", "get_mappings", "es_search", "execute_es_api",
        "get_shards", "list_data_streams"] := by
  constructor
  · rfl
  · set_option maxRecDepth 4000 in decide

/-- Amended claim C8: startup validation rejects exactly the
configurations in which exactly one of username and password is
non-empty; such a rejection happens inside `ConfigSchema.parse`, before
any tool is registered (the startup routine yields an error and no tool
list).  Supplying an API key together with a username/password pair is
accepted. -/
theorem config_auth_validation (c : Config.ElasticsearchConfig)
    (isValidUrl : String → Bool) (supportsDS : Bool) :
    (Config.configRefine c = false ↔
      ((Common.strTruthy c.username = true ∧ Common.strTruthy c.password = false) ∨
       (Common.strTruthy c.password = true ∧ Common.strTruthy c.username = false))) ∧
    (Config.configRefine c = false →
      Config.exceptIsOk
        (Config.createElasticsearchMcpServer isValidUrl c supportsDS) = false) := by
  constructor
  · cases hu : Common.strTruthy c.username <;>
      cases hp : Common.strTruthy c.password <;>
        simp [Config.configRefine, hu, hp]
  · intro h
    have hr : Config.configRefine { c with url := Common.jsTrim c.url } = false := h
    cases hpe : Config.configParse isValidUrl c with
    | error e =>
      unfold Config.createElasticsearchMcpServer
      rw [hpe]
      rfl
    | ok cfg =>
      exfalso
      simp only [Config.configParse] at hpe
      by_cases h1 : Common.jsTrim c.url = ""
      · simp [h1] at hpe
      · by_cases h2 : isValidUrl (Common.jsTrim c.url) = false
        · simp [h1, h2] at hpe
        · simp [h1, h2, hr] at hpe

/-- Claim C6: data-stream health follows the decision table with its
precedence — any red backing index or more than 200 backing indices is
critical regardless of everything else; otherwise any yellow backing
index, a last backing index above 50GB, a rollover anomaly (fewer than 5
indices with over 100GB total, or over 100 indices with under 50GB
total), or a missing ILM policy is warning; otherwise the stream is
healthy (so zero issues plus an ILM policy always classify healthy). -/
theorem datastream_health_decision_table (parseDate : String → Option Int)
    (ds : DataStreamAnalyzer.DataStreamInfo)
    (hCount : ds.indices_count = ds.backing_indices.length) :
    ((DataStreamAnalyzer.analyzeDataStreamHealth ds
        (DataStreamAnalyzer.calculateDataStreamStats parseDate ds.backing_indices)).status =
        DataStreamAnalyzer.HealthStatus.critical ↔
      DataStreamAnalyzer.criticalSpec ds) ∧
    ((DataStreamAnalyzer.analyzeDataStreamHealth ds
        (DataStreamAnalyzer.calculateDataStreamStats parseDate ds.backing_indices)).status =
        DataStreamAnalyzer.HealthStatus.warning ↔
      (¬ DataStreamAnalyzer.criticalSpec ds ∧
        DataStreamAnalyzer.warningSpec ds
          (DataStreamAnalyzer.calculateDataStreamStats parseDate ds.backing_indices))) ∧
    ((DataStreamAnalyzer.analyzeDataStreamHealth ds
        (DataStreamAnalyzer.calculateDataStreamStats parseDate ds.backing_indices)).status =
        DataStreamAnalyzer.HealthStatus.healthy ↔
      (¬ DataStreamAnalyzer.criticalSpec ds ∧
        ¬ DataStreamAnalyzer.warningSpec ds
          (DataStreamAnalyzer.calculateDataStreamStats parseDate ds.backing_indices))) := by
  have bridgeCrit :
      ((ds.backing_indices.any (fun i => i.health = some "red")) = true ∨
        ds.indices_count > 200) ↔ DataStreamAnalyzer.criticalSpec ds := by
    simp [DataStreamAnalyzer.criticalSpec, DataStreamAnalyzer.hasRedIndexSpec,
      List.any_eq_true, hCount]
  cases hl : ds.backing_indices.getLast? with
  | none =>
    have bridgeWarn :
        ((ds.backing_indices.any (fun i => i.health = some "yellow")) = true ∨
          (Common.strTruthy none = true ∧
            Common.gtQ (Common.divQ (Common.parseSizeToBytes none)
              (Common.Q.ofNat (1024 * 1024 * 1024))) (Common.Q.ofNat 50) = true) ∨
          ((ds.indices_count < 5 ∧
            Common.gtQ (DataStreamAnalyzer.calculateDataStreamStats parseDate
              ds.backing_indices).total_size_gb (Common.Q.ofNat 100) = true) ∨
           (¬ (ds.indices_count < 5 ∧
            Common.gtQ (DataStreamAnalyzer.calculateDataStreamStats parseDate
              ds.backing_indices).total_size_gb (Common.Q.ofNat 100) = true) ∧
            ds.indices_count > 100 ∧
            Common.ltQ (DataStreamAnalyzer.calculateDataStreamStats parseDate
              ds.backing_indices).total_size_gb (Common.Q.ofNat 50) = true)) ∨
          Common.strTruthy ds.ilm_policy = false) ↔
        DataStreamAnalyzer.warningSpec ds
          (DataStreamAnalyzer.calculateDataStreamStats parseDate ds.backing_indices) := by
      rw [DataStreamAnalyzer.warningSpec, DataStreamAnalyzer.hasYellowIndexSpec,
        DataStreamAnalyzer.largeLastIndexSpec, DataStreamAnalyzer.rolloverAnomalySpec,
        DataStreamAnalyzer.missingIlmSpec]
      simp only [List.any_eq_true, decide_eq_true_eq, hCount, hl]
      constructor
      · rintro (h | h | (h | h) | h)
        · exact Or.inl h
        · exact absurd h.1 (by simp [Common.strTruthy])
        · exact Or.inr (Or.inr (Or.inl (Or.inl h)))
        · exact Or.inr (Or.inr (Or.inl (Or.inr ⟨h.2.1, h.2.2⟩)))
        · exact Or.inr (Or.inr (Or.inr h))
      · rintro (h | ⟨last, hlast, h⟩ | (h | h) | h)
        · exact Or.inl h
        · simp [hl] at hlast
        · exact Or.inr (Or.inr (Or.inl (Or.inl h)))
        · by_cases htl : ds.backing_indices.length < 5 ∧
            Common.gtQ (DataStreamAnalyzer.calculateDataStreamStats parseDate
              ds.backing_indices).total_size_gb (Common.Q.ofNat 100) = true
          · exact Or.inr (Or.inr (Or.inl (Or.inl htl)))
          · exact Or.inr (Or.inr (Or.inl (Or.inr ⟨htl, h.1, h.2⟩)))
        · exact Or.inr (Or.inr (Or.inr h))
    refine ⟨?_, ?_, ?_⟩ <;>
      simp only [DataStreamAnalyzer.analyzeDataStreamHealth, hl] <;>
      split_ifs with hc hw
    · exact iff_of_true rfl (bridgeCrit.mp hc)
    · exact iff_of_false (by simp) (fun h => hc (bridgeCrit.mpr h))
    · exact iff_of_false (by simp) (fun h => hc (bridgeCrit.mpr h))
    · exact iff_of_false (by simp) (fun h => h.1 (bridgeCrit.mp hc))
    · exact iff_of_true rfl ⟨fun h => hc (bridgeCrit.mpr h), bridgeWarn.mp hw⟩
    · exact iff_of_false (by simp) (fun h => hw (bridgeWarn.mpr h.2))
    · exact iff_of_false (by simp) (fun h => h.1 (bridgeCrit.mp hc))
    · exact iff_of_false (by simp) (fun h => h.2 (bridgeWarn.mp hw))
    · exact iff_of_true rfl
        ⟨fun h => hc (bridgeCrit.mpr h), fun h => hw (bridgeWarn.mpr h)⟩
  | some l =>
    have bridgeWarn :
        ((ds.backing_indices.any (fun i => i.health = some "yellow")) = true ∨
          (Common.strTruthy l.store_size = true ∧
            Common.gtQ (Common.divQ (Common.parseSizeToBytes l.store_size)
              (Common.Q.ofNat (1024 * 1024 * 1024))) (Common.Q.ofNat 50) = true) ∨
          ((ds.indices_count < 5 ∧
            Common.gtQ (DataStreamAnalyzer.calculateDataStreamStats parseDate
              ds.backing_indices).total_size_gb (Common.Q.ofNat 100) = true) ∨
           (¬ (ds.indices_count < 5 ∧
            Common.gtQ (DataStreamAnalyzer.calculateDataStreamStats parseDate
              ds.backing_indices).total_size_gb (Common.Q.ofNat 100) = true) ∧
            ds.indices_count > 100 ∧
            Common.ltQ (DataStreamAnalyzer.calculateDataStreamStats parseDate
              ds.backing_indices).total_size_gb (Common.Q.ofNat 50) = true)) ∨
          Common.strTruthy ds.ilm_policy = false) ↔
        DataStreamAnalyzer.warningSpec ds
          (DataStreamAnalyzer.calculateDataStreamStats parseDate ds.backing_indices) := by
      rw [DataStreamAnalyzer.warningSpec, DataStreamAnalyzer.hasYellowIndexSpec,
        DataStreamAnalyzer.largeLastIndexSpec, DataStreamAnalyzer.rolloverAnomalySpec,
        DataStreamAnalyzer.missingIlmSpec]
      simp only [List.any_eq_true, decide_eq_true_eq, hCount, hl]
      constructor
      · rintro (h | h | (h | h) | h)
        · exact Or.inl h
        · exact Or.inr (Or.inl ⟨l, rfl, h.1, h.2⟩)
        · exact Or.inr (Or.inr (Or.inl (Or.inl h)))
        · exact Or.inr (Or.inr (Or.inl (Or.inr ⟨h.2.1, h.2.2⟩)))
        · exact Or.inr (Or.inr (Or.inr h))
      · rintro (h | ⟨last, hlast, h⟩ | (h | h) | h)
        · exact Or.inl h
        · rw [Option.some_inj] at hlast
          subst hlast
          exact Or.inr (Or.inl h)
        · exact Or.inr (Or.inr (Or.inl (Or.inl h)))
        · by_cases htl : ds.backing_indices.length < 5 ∧
            Common.gtQ (DataStreamAnalyzer.calculateDataStreamStats parseDate
              ds.backing_indices).total_size_gb (Common.Q.ofNat 100) = true
          · exact Or.inr (Or.inr (Or.inl (Or.inl htl)))
          · exact Or.inr (Or.inr (Or.inl (Or.inr ⟨htl, h.1, h.2⟩)))
        · exact Or.inr (Or.inr (Or.inr h))
    refine ⟨?_, ?_, ?_⟩ <;>
      simp only [DataStreamAnalyzer.analyzeDataStreamHealth, hl] <;>
      split_ifs with hc hw
    · exact iff_of_true rfl (bridgeCrit.mp hc)
    · exact iff_of_false (by simp) (fun h => hc (bridgeCrit.mpr h))
    · exact iff_of_false (by simp) (fun h => hc (bridgeCrit.mpr h))
    · exact iff_of_false (by simp) (fun h => h.1 (bridgeCrit.mp hc))
    · exact iff_of_true rfl ⟨fun h => hc (bridgeCrit.mpr h), bridgeWarn.mp hw⟩
    · exact iff_of_false (by simp) (fun h => hw (bridgeWarn.mpr h.2))
    · exact iff_of_false (by simp) (fun h => h.1 (bridgeCrit.mp hc))
    · exact iff_of_false (by simp) (fun h => h.2 (bridgeWarn.mp hw))
    · exact iff_of_true rfl
        ⟨fun h => hc (bridgeCrit.mpr h), fun h => hw (bridgeWarn.mpr h)⟩

/-- Witness for C6: a stream with one red backing index is critical; a
stream with one green backing index, small sizes and an ILM policy is
healthy. -/
theorem datastream_health_decision_table_witness :
    (DataStreamAnalyzer.analyzeDataStreamHealth
      ⟨"s1", "@timestamp", 1,
        [⟨".ds-s1-000001", some "red", some "open", some 100, some "1gb", none⟩],
        1, none, none⟩
      (DataStreamAnalyzer.calculateDataStreamStats (fun _ => none)
        [⟨".ds-s1-000001", some "red", some "open", some 100, some "1gb", none⟩])).status =
      DataStreamAnalyzer.HealthStatus.critical ∧
    (DataStreamAnalyzer.analyzeDataStreamHealth
      ⟨"s2", "@timestamp", 1,
        [⟨".ds-s2-000001", some "green", some "open", some 100, some "1gb", none⟩],
        1, none, some "policy"⟩
      (DataStreamAnalyzer.calculateDataStreamStats (fun _ => none)
        [⟨".ds-s2-000001", some "green", some "open", some 100, some "1gb", none⟩])).status =
      DataStreamAnalyzer.HealthStatus.healthy := by
  constructor
  · refine (datastream_health_decision_table (fun _ => none)
      ⟨"s1", "@timestamp", 1,
        [⟨".ds-s1-000001", some "red", some "open", some 100, some "1gb", none⟩],
        1, none, none⟩ rfl).1.mpr (Or.inl ?_)
    exact ⟨⟨".ds-s1-000001", some "red", some "open", some 100, some "1gb", none⟩,
      List.mem_singleton_self _, rfl⟩
  · refine (datastream_health_decision_table (fun _ => none)
      ⟨"s2", "@timestamp", 1,
        [⟨".ds-s2-000001", some "green", some "open", some 100, some "1gb", none⟩],
        1, none, some "policy"⟩ rfl).2.2.mpr ⟨?_, ?_⟩
    · rintro (⟨i, hi, hh⟩ | hlen)
      · simp only [List.mem_singleton] at hi
        subst hi
        exact absurd hh (by decide)
      · exact absurd hlen (by decide)
    · rintro (⟨i, hi, hh⟩ | ⟨last, hlast, hts, hgt⟩ | (⟨h5, hgt⟩ | ⟨h100, hlt⟩) | hilm)
      · simp only [List.mem_singleton] at hi
        subst hi
        exact absurd hh (by decide)
      · simp only [List.getLast?_singleton, Option.some_inj] at hlast
        subst hlast
        exact absurd hgt (by decide)
      · exact absurd hgt (by decide)
      · exact absurd h100 (by decide)
      · exact absurd hilm (by unfold DataStreamAnalyzer.missingIlmSpec; decide)

/-- Helper: role counting does not touch the histogram projection. -/
theorem histProj_countRole (st : ShardAnalyzer.LoopState)
    (sh : ShardAnalyzer.ShardInfo) :
    ShardAnalyzer.histProj (ShardAnalyzer.countRoleStep st sh) =
      ShardAnalyzer.histProj st := by
  simp only [ShardAnalyzer.countRoleStep]
  split_ifs <;> rfl

/-- Helper: state counting does not touch the histogram projection. -/
theorem histProj_countState (st : ShardAnalyzer.LoopState)
    (sh : ShardAnalyzer.ShardInfo) :
    ShardAnalyzer.histProj (ShardAnalyzer.countStateStep st sh) =
      ShardAnalyzer.histProj st := by
  simp only [ShardAnalyzer.countStateStep]
  split_ifs <;> rfl

/-- Helper: index-stats accumulation does not touch the histogram
projection. -/
theorem histProj_indexStats (st : ShardAnalyzer.LoopState)
    (sh : ShardAnalyzer.ShardInfo) :
    ShardAnalyzer.histProj (ShardAnalyzer.indexStatsStep st sh) =
      ShardAnalyzer.histProj st := rfl

/-- Helper: node counting does not touch the histogram projection. -/
theorem histProj_nodeCount (st : ShardAnalyzer.LoopState)
    (sh : ShardAnalyzer.ShardInfo) :
    ShardAnalyzer.histProj (ShardAnalyzer.nodeCountStep st sh) =
      ShardAnalyzer.histProj st := by
  simp only [ShardAnalyzer.nodeCountStep]
  split_ifs <;> rfl

/-- Helper: the size-health classification updates the histogram
projection as a function of the previous projection and the shard. -/
theorem histProj_sizeHealth_congr (t : Common.Q)
    (st st' : ShardAnalyzer.LoopState) (sh : ShardAnalyzer.ShardInfo)
    (hproj : ShardAnalyzer.histProj st = ShardAnalyzer.histProj st') :
    ShardAnalyzer.histProj (ShardAnalyzer.sizeHealthStep t st sh) =
      ShardAnalyzer.histProj (ShardAnalyzer.sizeHealthStep t st' sh) := by
  have h1 : st.size_health = st'.size_health :=
    congrArg ShardAnalyzer.HistProj.size_health hproj
  have h2 : st.docs_health = st'.docs_health :=
    congrArg ShardAnalyzer.HistProj.docs_health hproj
  have h3 : st.oversizedShards = st'.oversizedShards :=
    congrArg ShardAnalyzer.HistProj.oversized hproj
  have h4 : st.overDocumentedShards = st'.overDocumentedShards :=
    congrArg ShardAnalyzer.HistProj.over_documented hproj
  simp only [ShardAnalyzer.sizeHealthStep]
  split_ifs <;> simp [ShardAnalyzer.histProj, h1, h2, h3, h4]

/-- Helper: the docs-health classification updates the histogram
projection as a function of the previous projection and the shard. -/
theorem histProj_docsHealth_congr (d : Int)
    (st st' : ShardAnalyzer.LoopState) (sh : ShardAnalyzer.ShardInfo)
    (hproj : ShardAnalyzer.histProj st = ShardAnalyzer.histProj st') :
    ShardAnalyzer.histProj (ShardAnalyzer.docsHealthStep d st sh) =
      ShardAnalyzer.histProj (ShardAnalyzer.docsHealthStep d st' sh) := by
  have h1 : st.size_health = st'.size_health :=
    congrArg ShardAnalyzer.HistProj.size_health hproj
  have h2 : st.docs_health = st'.docs_health :=
    congrArg ShardAnalyzer.HistProj.docs_health hproj
  have h3 : st.oversizedShards = st'.oversizedShards :=
    congrArg ShardAnalyzer.HistProj.oversized hproj
  have h4 : st.overDocumentedShards = st'.overDocumentedShards :=
    congrArg ShardAnalyzer.HistProj.over_documented hproj
  simp only [ShardAnalyzer.docsHealthStep]
  split_ifs <;> simp [ShardAnalyzer.histProj, h1, h2, h3, h4]

/-- Helper: a loop step on a shard that is not a started primary leaves
the size and docs histograms and their problem lists unchanged. -/
theorem histProj_loopStep_not_sp (t : Common.Q) (d : Int)
    (st : ShardAnalyzer.LoopState) (sh : ShardAnalyzer.ShardInfo)
    (h : ShardAnalyzer.startedPrimary sh = false) :
    ShardAnalyzer.histProj (ShardAnalyzer.loopStep t d st sh) =
      ShardAnalyzer.histProj st := by
  have h' : ¬ (sh.prirep = some "p" ∧ ShardAnalyzer.stateLower sh = "started") := by
    simpa [ShardAnalyzer.startedPrimary] using h
  simp only [ShardAnalyzer.loopStep]
  by_cases hwf : Common.strTruthy sh.index = false ∨ Common.strTruthy sh.shard = false
  · rw [if_pos hwf]
  · rw [if_neg hwf, if_neg h']
    rw [histProj_nodeCount, histProj_countState, histProj_countRole]

/-- Helper: the histogram projection after a loop step depends only on
the previous histogram projection (and the shard itself). -/
theorem histProj_loopStep_congr (t : Common.Q) (d : Int)
    (st st' : ShardAnalyzer.LoopState) (sh : ShardAnalyzer.ShardInfo)
    (hproj : ShardAnalyzer.histProj st = ShardAnalyzer.histProj st') :
    ShardAnalyzer.histProj (ShardAnalyzer.loopStep t d st sh) =
      ShardAnalyzer.histProj (ShardAnalyzer.loopStep t d st' sh) := by
  simp only [ShardAnalyzer.loopStep]
  by_cases hwf : Common.strTruthy sh.index = false ∨ Common.strTruthy sh.shard = false
  · rw [if_pos hwf, if_pos hwf]
    exact hproj
  · rw [if_neg hwf, if_neg hwf]
    by_cases hguard : sh.prirep = some "p" ∧ ShardAnalyzer.stateLower sh = "started"
    · rw [if_pos hguard, if_pos hguard]
      rw [histProj_nodeCount, histProj_nodeCount, histProj_indexStats,
        histProj_indexStats]
      refine histProj_docsHealth_congr d _ _ sh
        (histProj_sizeHealth_congr t _ _ sh ?_)
      rw [histProj_countState, histProj_countState, histProj_countRole,
        histProj_countRole]
      exact hproj
    · rw [if_neg hguard, if_neg hguard]
      rw [histProj_nodeCount, histProj_nodeCount, histProj_countState,
        histProj_countState, histProj_countRole, histProj_countRole]
      exact hproj

/-- Helper: the histogram projection of the main loop is computed by the
started-primary shards alone. -/
theorem histProj_foldl_filter (t : Common.Q) (d : Int) :
    ∀ (l : List ShardAnalyzer.ShardInfo) (st st' : ShardAnalyzer.LoopState),
    ShardAnalyzer.histProj st = ShardAnalyzer.histProj st' →
    ShardAnalyzer.histProj (l.foldl (ShardAnalyzer.loopStep t d) st) =
      ShardAnalyzer.histProj
        ((l.filter ShardAnalyzer.startedPrimary).foldl
          (ShardAnalyzer.loopStep t d) st') := by
  intro l
  induction l with
  | nil =>
    intro st st' h
    simpa using h
  | cons sh rest ih =>
    intro st st' h
    by_cases hsp : ShardAnalyzer.startedPrimary sh = true
    · rw [List.foldl_cons, List.filter_cons_of_pos hsp, List.foldl_cons]
      exact ih _ _ (histProj_loopStep_congr t d st st' sh h)
    · have hsp' : ShardAnalyzer.startedPrimary sh = false := by
        simpa using hsp
      rw [List.foldl_cons, List.filter_cons_of_neg (by simp [hsp'])]
      refine ih (ShardAnalyzer.loopStep t d st sh) st' ?_
      rw [histProj_loopStep_not_sp t d st sh hsp']
      exact h

/-- Claim C7: `analyzeShardHealth` computes its size and document
histograms (and the oversized and over-documented problem lists they
feed) only over shards that are both primary and started — filtering the
input to started primaries leaves them unchanged; five started primary
shards of one index, each over the default 200M-document threshold, give
an over_documented list of length 5 and `docs_health.critical = 5`; and
the empty shard list gives all-zero histograms without an exception. -/
theorem analyzeShardHealth_histograms (shards : List ShardAnalyzer.ShardInfo)
    (sizeThresholdGB : Common.Q) (docsThresholdM : Int) :
    ((ShardAnalyzer.analyzeShardHealth shards sizeThresholdGB docsThresholdM).size_health =
      (ShardAnalyzer.analyzeShardHealth (shards.filter ShardAnalyzer.startedPrimary)
        sizeThresholdGB docsThresholdM).size_health ∧
     (ShardAnalyzer.analyzeShardHealth shards sizeThresholdGB docsThresholdM).docs_health =
      (ShardAnalyzer.analyzeShardHealth (shards.filter ShardAnalyzer.startedPrimary)
        sizeThresholdGB docsThresholdM).docs_health ∧
     (ShardAnalyzer.analyzeShardHealth shards sizeThresholdGB
        docsThresholdM).problem_shards.oversized =
      (ShardAnalyzer.analyzeShardHealth (shards.filter ShardAnalyzer.startedPrimary)
        sizeThresholdGB docsThresholdM).problem_shards.oversized ∧
     (ShardAnalyzer.analyzeShardHealth shards sizeThresholdGB
        docsThresholdM).problem_shards.over_documented =
      (ShardAnalyzer.analyzeShardHealth (shards.filter ShardAnalyzer.startedPrimary)
        sizeThresholdGB docsThresholdM).problem_shards.over_documented) ∧
    ((ShardAnalyzer.analyzeShardHealth
        [⟨some "big-index", some "0", some "p", some "STARTED", some "300000000",
          some "10gb", none, some "node-1"⟩,
         ⟨some "big-index", some "1", some "p", some "STARTED", some "300000000",
          some "10gb", none, some "node-1"⟩,
         ⟨some "big-index", some "2", some "p", some "STARTED", some "300000000",
          some "10gb", none, some "node-1"⟩,
         ⟨some "big-index", some "3", some "p", some "STARTED", some "300000000",
          some "10gb", none, some "node-1"⟩,
         ⟨some "big-index", some "4", some "p", some "STARTED", some "300000000",
          some "10gb", none, some "node-1"⟩]
        (Common.Q.ofNat 50) 200).problem_shards.over_documented.length = 5 ∧
     (ShardAnalyzer.analyzeShardHealth
        [⟨some "big-index", some "0", some "p", some "STARTED", some "300000000",
          some "10gb", none, some "node-1"⟩,
         ⟨some "big-index", some "1", some "p", some "STARTED", some "300000000",
          some "10gb", none, some "node-1"⟩,
         ⟨some "big-index", some "2", some "p", some "STARTED", some "300000000",
          some "10gb", none, some "node-1"⟩,
         ⟨some "big-index", some "3", some "p", some "STARTED", some "300000000",
          some "10gb", none, some "node-1"⟩,
         ⟨some "big-index", some "4", some "p", some "STARTED", some "300000000",
          some "10gb", none, some "node-1"⟩]
        (Common.Q.ofNat 50) 200).docs_health.critical = 5) ∧
    ((ShardAnalyzer.analyzeShardHealth [] (Common.Q.ofNat 50) 200).size_health =
        ⟨0, 0, 0, 0, 0⟩ ∧
     (ShardAnalyzer.analyzeShardHealth [] (Common.Q.ofNat 50) 200).docs_health =
        ⟨0, 0, 0, 0⟩) := by
  refine ⟨?_, ⟨?_, ?_⟩, ⟨rfl, rfl⟩⟩
  · have h := histProj_foldl_filter sizeThresholdGB docsThresholdM shards
      ShardAnalyzer.initLoopState ShardAnalyzer.initLoopState rfl
    exact ⟨congrArg ShardAnalyzer.HistProj.size_health h,
      congrArg ShardAnalyzer.HistProj.docs_health h,
      congrArg ShardAnalyzer.HistProj.oversized h,
      congrArg ShardAnalyzer.HistProj.over_documented h⟩
  · set_option maxRecDepth 8000 in decide
  · set_option maxRecDepth 8000 in decide

/-- Witness for the amended C8: a username without a password is
rejected at startup with no tools registered. -/
theorem config_auth_validation_witness :
    Config.exceptIsOk (Config.createElasticsearchMcpServer (fun _ => true)
      ⟨"http://localhost:9200", none, some "user", none, none⟩ true) = false := by
  have h := config_auth_validation
    ⟨"http://localhost:9200", none, some "user", none, none⟩ (fun _ => true) true
  exact h.2 (h.1.mpr (Or.inl (by decide)))
